import Mathlib

/-!
Verification of the LED-KEY demo (`src/main.c`): two RT-Thread threads share a
one-byte mode variable; a key-scan thread debounces three active-low buttons and
writes the mode, an LED thread renders one of three patterns (all-off, chase,
binary count) onto four output pins.

Shallow embedding: pin levels are `Bool` (`true` = `PIN_HIGH`), the four LED
pins are indexed by `Fin 4` in the order of the C array `led_pins`
(LED1..LED4), machine bytes are `Nat` reduced mod 256 where the C code wraps,
and each C function becomes a state-passing Lean function.  Blocking delays
(`rt_thread_mdelay`) only consume time and are not part of the observable state.
-/

namespace LedKey

/-- Mode code `LED_MODE_NONE = 0` (all LEDs off). -/
def LED_MODE_NONE : Nat := 0

/-- Mode code `LED_MODE_FLOW` (chase / running-light pattern). -/
def LED_MODE_FLOW : Nat := 1

/-- Mode code `LED_MODE_BINARY` (binary-count pattern). -/
def LED_MODE_BINARY : Nat := 2

/-- The state touched by the LED thread: the four LED pin levels (indexed like
the C array `led_pins`), the shared byte `g_led_mode`, and the two function-
local `static` variables: `index` of `led_mode_flow_step` and `value` of
`led_mode_binary_step`. -/
structure SysState where
  leds : Fin 4 → Bool
  g_led_mode : Nat
  flow_index : Nat
  binary_value : Nat

/-- The call `rt_pin_write(led_pins[i], level)`: set LED `i` to `level`. -/
def rt_pin_write (s : SysState) (i : Fin 4) (level : Bool) : SysState :=
  { s with leds := Function.update s.leds i level }

/-- The function `leds_all_off`: loop over the four LED pins writing `PIN_LOW`. -/
def leds_all_off (s : SysState) : SysState :=
  (List.finRange 4).foldl (fun st i => rt_pin_write st i false) s

/-- The function `led_mode_flow_step`: all LEDs off, light the LED at the retained `index`
(`static int index`, always in `[0,4)`), delay 150 ms, then advance
`index = (index + 1) % 4`. -/
def led_mode_flow_step (s : SysState) : SysState :=
  let s1 := leds_all_off s
  let s2 := if h : s.flow_index < 4 then rt_pin_write s1 ⟨s.flow_index, h⟩ true else s1
  { s2 with flow_index := (s.flow_index + 1) % 4 }

/-- The function `led_mode_binary_step`: for each LED `i`, set it high iff bit `i` of the
retained byte `value` is set (`value & (1 << i)`), then increment `value` with
8-bit wraparound, then delay 200 ms. -/
def led_mode_binary_step (s : SysState) : SysState :=
  let s1 := (List.finRange 4).foldl
    (fun st i => rt_pin_write st i (Nat.testBit s.binary_value i.val)) s
  { s1 with binary_value := (s1.binary_value + 1) % 256 }

/-- One iteration of the LED thread loop (`led_thread_entry`): read
`g_led_mode` once and dispatch on it; the `default` branch forces all LEDs off
and delays 50 ms. -/
def led_thread_iter (s : SysState) : SysState :=
  let mode := s.g_led_mode
  if mode = LED_MODE_FLOW then led_mode_flow_step s
  else if mode = LED_MODE_BINARY then led_mode_binary_step s
  else leds_all_off s

/-- State after `main` has run: all LEDs driven low, `g_led_mode` at its
initializer `LED_MODE_NONE`, both `static` locals at their initializer `0`. -/
def s_init : SysState :=
  { leds := fun _ => false
    g_led_mode := LED_MODE_NONE
    flow_index := 0
    binary_value := 0 }

/-! ### Basic lemmas about the LED-side functions -/

theorem leds_all_off_leds (s : SysState) (i : Fin 4) :
    (leds_all_off s).leds i = false := by
  fin_cases i <;> rfl

theorem leds_all_off_g_led_mode (s : SysState) :
    (leds_all_off s).g_led_mode = s.g_led_mode := rfl

theorem leds_all_off_flow_index (s : SysState) :
    (leds_all_off s).flow_index = s.flow_index := rfl

theorem leds_all_off_binary_value (s : SysState) :
    (leds_all_off s).binary_value = s.binary_value := rfl

/-! ### Chase (flow) pattern -/

theorem led_mode_flow_step_spec (s : SysState) (h : s.flow_index < 4) :
    (∀ j : Fin 4, (led_mode_flow_step s).leds j = decide (j.val = s.flow_index))
    ∧ (led_mode_flow_step s).flow_index = (s.flow_index + 1) % 4
    ∧ (led_mode_flow_step s).binary_value = s.binary_value
    ∧ (led_mode_flow_step s).g_led_mode = s.g_led_mode := by
  refine ⟨?_, ?_, ?_, ?_⟩
  · intro j
    simp only [led_mode_flow_step, dif_pos h, rt_pin_write, Function.update]
    by_cases hj : j = (⟨s.flow_index, h⟩ : Fin 4)
    · subst hj; simp
    · rw [dif_neg hj]
      have hval : ¬ j.val = s.flow_index := by
        intro hv; exact hj (Fin.ext hv)
      simp [leds_all_off_leds, hval]
  · rfl
  · simp only [led_mode_flow_step, dif_pos h]; rfl
  · simp only [led_mode_flow_step, dif_pos h]; rfl

/-- After `k+1` consecutive chase steps from a state whose index is in range,
the LED levels are the indicator of `(flow_index + k) % 4`, and the retained
index after `k` steps is `(flow_index + k) % 4`. -/
theorem flow_iter_spec (k : Nat) : ∀ (s : SysState), s.flow_index < 4 →
    (∀ j : Fin 4, (led_mode_flow_step^[k+1] s).leds j
        = decide (j.val = (s.flow_index + k) % 4))
    ∧ (led_mode_flow_step^[k] s).flow_index = (s.flow_index + k) % 4
    ∧ (led_mode_flow_step^[k] s).g_led_mode = s.g_led_mode
    ∧ (led_mode_flow_step^[k] s).binary_value = s.binary_value := by
  induction k with
  | zero =>
    intro s h
    obtain ⟨hleds, _, _, _⟩ := led_mode_flow_step_spec s h
    refine ⟨?_, ?_, rfl, rfl⟩
    · intro j
      rw [Function.iterate_one, hleds j, Nat.add_zero, Nat.mod_eq_of_lt h]
    · simp [Nat.mod_eq_of_lt h]
  | succ k ih =>
    intro s h
    obtain ⟨hleds, hidx, hbv, hmode⟩ := led_mode_flow_step_spec s h
    have h1 : (led_mode_flow_step s).flow_index < 4 := by
      rw [hidx]; exact Nat.mod_lt _ (by norm_num)
    obtain ⟨ih1, ih2, ih3, ih4⟩ := ih (led_mode_flow_step s) h1
    have harith : ((led_mode_flow_step s).flow_index + k) % 4
        = (s.flow_index + (k + 1)) % 4 := by
      rw [hidx, Nat.mod_add_mod]
      congr 1
      omega
    refine ⟨?_, ?_, ?_, ?_⟩
    · intro j
      rw [Function.iterate_succ_apply, ih1 j, harith]
    · rw [Function.iterate_succ_apply, ih2, harith]
    · rw [Function.iterate_succ_apply, ih3, hmode]
    · rw [Function.iterate_succ_apply, ih4, hbv]

/-- C2: for any number of consecutive chase steps (from any state whose
retained index is in range, as it always is at runtime), after each step
exactly one LED is high, namely the one at the retained index read before that
step; the index advances by one modulo 4 per step; and the lit-LED sequence is
cyclic with period exactly 4. -/
theorem C2_chase_cycle (s : SysState) (h : s.flow_index < 4) (k : Nat) :
    (∃! j : Fin 4, (led_mode_flow_step^[k+1] s).leds j = true)
    ∧ (∀ j : Fin 4, (led_mode_flow_step^[k+1] s).leds j = true
        ↔ j.val = (led_mode_flow_step^[k] s).flow_index)
    ∧ (led_mode_flow_step^[k+1] s).flow_index
        = ((led_mode_flow_step^[k] s).flow_index + 1) % 4
    ∧ (led_mode_flow_step^[k+4+1] s).leds = (led_mode_flow_step^[k+1] s).leds
    ∧ (∀ d : Nat, 0 < d → d < 4 →
        (led_mode_flow_step^[k+d+1] s).leds ≠ (led_mode_flow_step^[k+1] s).leds) := by
  have hlt : (s.flow_index + k) % 4 < 4 := Nat.mod_lt _ (by norm_num)
  have hk := flow_iter_spec k s h
  refine ⟨?_, ?_, ?_, ?_, ?_⟩
  · refine ⟨⟨(s.flow_index + k) % 4, hlt⟩, ?_, ?_⟩
    · show (led_mode_flow_step^[k+1] s).leds _ = true
      rw [hk.1]; simp
    · intro j hj
      have hj' : (led_mode_flow_step^[k+1] s).leds j = true := hj
      rw [hk.1 j, decide_eq_true_iff] at hj'
      exact Fin.ext hj'
  · intro j
    rw [hk.1 j, hk.2.1, decide_eq_true_iff]
  · rw [(flow_iter_spec (k+1) s h).2.1, hk.2.1, Nat.mod_add_mod]
    omega
  · funext j
    rw [(flow_iter_spec (k+4) s h).1 j, hk.1 j]
    have harith : (s.flow_index + (k + 4)) % 4 = (s.flow_index + k) % 4 := by omega
    rw [harith]
  · intro d hd1 hd4 heq
    have e1 := congrFun heq ⟨(s.flow_index + k) % 4, hlt⟩
    rw [(flow_iter_spec (k+d) s h).1, hk.1] at e1
    have e3 : decide ((((⟨(s.flow_index + k) % 4, hlt⟩ : Fin 4) : Nat))
        = (s.flow_index + (k + d)) % 4) = true := by
      rw [e1]; simp
    have e2 := of_decide_eq_true e3
    simp only [Fin.val_mk] at e2
    omega

/-- Witness for `C2_chase_cycle` at the post-startup state and `k = 2`. -/
theorem C2_chase_cycle_witness :
    (led_mode_flow_step^[3] s_init).flow_index
      = ((led_mode_flow_step^[2] s_init).flow_index + 1) % 4 :=
  (C2_chase_cycle s_init (by decide) 2).2.2.1

/-! ### Binary-count pattern -/

theorem led_mode_binary_step_spec (s : SysState) :
    (∀ i : Fin 4, (led_mode_binary_step s).leds i = Nat.testBit s.binary_value i.val)
    ∧ (led_mode_binary_step s).binary_value = (s.binary_value + 1) % 256
    ∧ (led_mode_binary_step s).flow_index = s.flow_index
    ∧ (led_mode_binary_step s).g_led_mode = s.g_led_mode := by
  refine ⟨?_, rfl, rfl, rfl⟩
  intro i
  fin_cases i <;> rfl

/-- The retained counter after `n+1` binary steps is the original counter plus
`n+1`, reduced mod 256. -/
theorem binary_iter_value (n : Nat) : ∀ s : SysState,
    (led_mode_binary_step^[n+1] s).binary_value = (s.binary_value + (n+1)) % 256 := by
  induction n with
  | zero =>
    intro s
    rw [Function.iterate_one]
    exact (led_mode_binary_step_spec s).2.1
  | succ n ih =>
    intro s
    rw [Function.iterate_succ_apply, ih, (led_mode_binary_step_spec s).2.1]
    omega

/-- The LED levels after `n+1` binary steps are the low four bits of the
original counter plus `n` (the value the last step read before incrementing). -/
theorem binary_iter_leds (n : Nat) : ∀ (s : SysState) (i : Fin 4),
    (led_mode_binary_step^[n+1] s).leds i
      = Nat.testBit ((s.binary_value + n) % 16) i.val := by
  have h16 : (16 : Nat) = 2 ^ 4 := by norm_num
  induction n with
  | zero =>
    intro s i
    rw [Function.iterate_one, (led_mode_binary_step_spec s).1 i, Nat.add_zero, h16,
      Nat.testBit_mod_two_pow]
    have hi : i.val < 4 := i.isLt
    simp [hi]
  | succ n ih =>
    intro s i
    rw [Function.iterate_succ_apply, ih, (led_mode_binary_step_spec s).2.1]
    have harith : ((s.binary_value + 1) % 256 + n) % 16
        = (s.binary_value + (n + 1)) % 16 := by omega
    rw [harith]

theorem binary_iter_flow_index (n : Nat) : ∀ s : SysState,
    (led_mode_binary_step^[n] s).flow_index = s.flow_index := by
  induction n with
  | zero => intro s; rfl
  | succ n ih =>
    intro s
    rw [Function.iterate_succ_apply, ih, (led_mode_binary_step_spec s).2.2.1]

/-- The visible 4-bit value on the LEDs: LED `i` contributes `2^i`, LED1 being
the least-significant bit. -/
def ledsVal (s : SysState) : Nat :=
  (if s.leds 0 then 1 else 0) + (if s.leds 1 then 2 else 0)
    + (if s.leds 2 then 4 else 0) + (if s.leds 3 then 8 else 0)

theorem bit_sum_eq_self : ∀ r : Nat, r < 16 →
    ((if Nat.testBit r 0 then 1 else 0) + (if Nat.testBit r 1 then 2 else 0)
      + (if Nat.testBit r 2 then 4 else 0) + (if Nat.testBit r 3 then 8 else 0)) = r := by
  decide

/-- C1 as stated is false: after `K = 1` binary steps from the startup state
(counter `0`), the visible pattern is `0`, not `1 % 16 = 1` — the step renders
the counter first and increments it afterwards. -/
theorem C1_binary_count_counterexample :
    ¬ (ledsVal (led_mode_binary_step^[1] s_init) = 1 % 16) := by decide

/-- C1 amended: starting from counter value `0`, after `K ≥ 1` consecutive
binary steps the visible 4-bit pattern equals `(K - 1) mod 16` (each step
renders the counter value it read before incrementing it). -/
theorem C1_binary_count_pattern (s : SysState) (hv : s.binary_value = 0)
    (K : Nat) (hK : 1 ≤ K) :
    ledsVal (led_mode_binary_step^[K] s) = (K - 1) % 16 := by
  obtain ⟨n, rfl⟩ : ∃ n, K = n + 1 := ⟨K - 1, by omega⟩
  have hleds := binary_iter_leds n s
  rw [hv, Nat.zero_add] at hleds
  have hlt : n % 16 < 16 := Nat.mod_lt _ (by norm_num)
  have := bit_sum_eq_self (n % 16) hlt
  rw [ledsVal, hleds 0, hleds 1, hleds 2, hleds 3]
  simpa using this

/-- Witness for `C1_binary_count_pattern`: five steps from startup show
pattern `4`. -/
theorem C1_binary_count_pattern_witness :
    ledsVal (led_mode_binary_step^[5] s_init) = (5 - 1) % 16 :=
  C1_binary_count_pattern s_init rfl 5 (by norm_num)

/-- C7: the retained counter is incremented mod 256 by each binary step, each
step renders exactly the low 4 bits of the counter it read, the visible LED
pattern is periodic in the step count with period 16, and the counter value is
periodic with period 256. -/
theorem C7_binary_counter_period (s : SysState) (n : Nat) :
    (led_mode_binary_step s).binary_value = (s.binary_value + 1) % 256
    ∧ (∀ i : Fin 4, (led_mode_binary_step s).leds i
        = Nat.testBit (s.binary_value % 16) i.val)
    ∧ (led_mode_binary_step^[(n+1)+16] s).leds = (led_mode_binary_step^[n+1] s).leds
    ∧ (led_mode_binary_step^[(n+1)+256] s).binary_value
        = (led_mode_binary_step^[n+1] s).binary_value := by
  have h16 : (16 : Nat) = 2 ^ 4 := by norm_num
  refine ⟨(led_mode_binary_step_spec s).2.1, ?_, ?_, ?_⟩
  · intro i
    rw [(led_mode_binary_step_spec s).1 i, h16, Nat.testBit_mod_two_pow]
    have hi : i.val < 4 := i.isLt
    simp [hi]
  · funext i
    have e1 := binary_iter_leds (n + 16) s i
    have e2 := binary_iter_leds n s i
    have harith : (s.binary_value + (n + 16)) % 16 = (s.binary_value + n) % 16 := by
      omega
    have hexp : n + 1 + 16 = (n + 16) + 1 := by omega
    rw [hexp, e1, harith, ← e2]
  · have e1 := binary_iter_value (n + 256) s
    have e2 := binary_iter_value n s
    have hexp : n + 1 + 256 = (n + 256) + 1 := by omega
    rw [hexp, e1, e2]
    omega

/-! ### LED thread dispatch -/

theorem led_thread_iter_default (s : SysState)
    (h1 : s.g_led_mode ≠ LED_MODE_FLOW) (h2 : s.g_led_mode ≠ LED_MODE_BINARY) :
    led_thread_iter s = leds_all_off s := by
  simp [led_thread_iter, h1, h2]

/-- C5: whenever the LED thread reads mode `Off`, the iteration drives all
four LEDs low; iterating while the mode stays `Off` (the LED thread never
writes the mode) keeps every LED low on every subsequent render. -/
theorem C5_off_renders_dark (n : Nat) : ∀ s : SysState,
    s.g_led_mode = LED_MODE_NONE →
    (∀ i : Fin 4, (led_thread_iter^[n+1] s).leds i = false)
    ∧ (led_thread_iter^[n+1] s).g_led_mode = LED_MODE_NONE := by
  induction n with
  | zero =>
    intro s h
    have hd : led_thread_iter s = leds_all_off s :=
      led_thread_iter_default s (by rw [h]; decide) (by rw [h]; decide)
    rw [Function.iterate_one, hd]
    exact ⟨leds_all_off_leds s, by rw [leds_all_off_g_led_mode, h]⟩
  | succ n ih =>
    intro s h
    have hd : led_thread_iter s = leds_all_off s :=
      led_thread_iter_default s (by rw [h]; decide) (by rw [h]; decide)
    have h1 : (led_thread_iter s).g_led_mode = LED_MODE_NONE := by
      rw [hd, leds_all_off_g_led_mode, h]
    have := ih (led_thread_iter s) h1
    rw [Function.iterate_succ_apply]
    exact this

/-- Witness for `C5_off_renders_dark`: three renders from the startup state. -/
theorem C5_off_renders_dark_witness :
    (∀ i : Fin 4, (led_thread_iter^[3] s_init).leds i = false)
    ∧ (led_thread_iter^[3] s_init).g_led_mode = LED_MODE_NONE :=
  C5_off_renders_dark 2 s_init rfl

/-- C10: any mode byte other than the chase code `1` and the binary code `2`
takes the `default` branch: all four LEDs are driven low, the retained
counters are untouched, and the LED levels are exactly those produced with
mode `Off`. -/
theorem C10_default_like_off (s : SysState)
    (h1 : s.g_led_mode ≠ LED_MODE_FLOW) (h2 : s.g_led_mode ≠ LED_MODE_BINARY) :
    (∀ i : Fin 4, (led_thread_iter s).leds i = false)
    ∧ (led_thread_iter s).leds
        = (led_thread_iter { s with g_led_mode := LED_MODE_NONE }).leds
    ∧ (led_thread_iter s).flow_index = s.flow_index
    ∧ (led_thread_iter s).binary_value = s.binary_value := by
  have hd := led_thread_iter_default s h1 h2
  have hd0 : led_thread_iter { s with g_led_mode := LED_MODE_NONE }
      = leds_all_off { s with g_led_mode := LED_MODE_NONE } :=
    led_thread_iter_default _ (by simp [LED_MODE_NONE, LED_MODE_FLOW])
      (by simp [LED_MODE_NONE, LED_MODE_BINARY])
  refine ⟨?_, ?_, ?_, ?_⟩
  · intro i; rw [hd]; exact leds_all_off_leds s i
  · funext i
    rw [hd, hd0, leds_all_off_leds, leds_all_off_leds]
  · rw [hd, leds_all_off_flow_index]
  · rw [hd, leds_all_off_binary_value]

/-- Witness for `C10_default_like_off` at the out-of-range mode byte `5`. -/
theorem C10_default_like_off_witness :
    (led_thread_iter { s_init with g_led_mode := 5 }).leds 1 = false :=
  (C10_default_like_off { s_init with g_led_mode := 5 }
    (by decide) (by decide)).1 1

/-- C6: the chase index and the binary counter are retained and never reset:
a chase step leaves the binary counter and the mode alone, a binary step
leaves the chase index and the mode alone, an `Off` render leaves both
counters alone, and the only updates are the advance `(index+1) % 4` and the
wraparound increment `(value+1) % 256`. -/
theorem C6_state_retention (s : SysState) :
    ((led_mode_flow_step s).binary_value = s.binary_value
      ∧ (led_mode_flow_step s).g_led_mode = s.g_led_mode)
    ∧ ((led_mode_binary_step s).flow_index = s.flow_index
      ∧ (led_mode_binary_step s).g_led_mode = s.g_led_mode)
    ∧ (s.g_led_mode = LED_MODE_NONE →
        (led_thread_iter s).flow_index = s.flow_index
        ∧ (led_thread_iter s).binary_value = s.binary_value)
    ∧ (led_mode_flow_step s).flow_index = (s.flow_index + 1) % 4
    ∧ (led_mode_binary_step s).binary_value = (s.binary_value + 1) % 256 := by
  refine ⟨⟨?_, ?_⟩, ⟨(led_mode_binary_step_spec s).2.2.1,
    (led_mode_binary_step_spec s).2.2.2⟩, ?_, ?_, (led_mode_binary_step_spec s).2.1⟩
  · by_cases h : s.flow_index < 4 <;>
      simp only [led_mode_flow_step, dif_pos, dif_neg, h, if_true, if_false] <;> rfl
  · by_cases h : s.flow_index < 4 <;>
      simp only [led_mode_flow_step, dif_pos, dif_neg, h, if_true, if_false] <;> rfl
  · intro h
    have hd : led_thread_iter s = leds_all_off s :=
      led_thread_iter_default s (by rw [h]; decide) (by rw [h]; decide)
    rw [hd, leds_all_off_flow_index, leds_all_off_binary_value]
    exact ⟨rfl, rfl⟩
  · by_cases h : s.flow_index < 4 <;>
      simp only [led_mode_flow_step, dif_pos, dif_neg, h, if_true, if_false]

/-- Witness for `C6_state_retention`: discharging the `Off`-render clause at
the startup state. -/
theorem C6_state_retention_witness :
    (led_thread_iter s_init).flow_index = s_init.flow_index
    ∧ (led_thread_iter s_init).binary_value = s_init.binary_value :=
  (C6_state_retention s_init).2.2.1 rfl

/-! ### Key-scan thread

Pin levels are `Bool` (`true` = high = released, `false` = low = pressed).
One loop iteration of `key_thread_entry` samples the three keys, runs the
falling-edge + 20 ms-recheck debounce block for each key in program order
(KEY1, KEY2, KEY3), then stores the samples as the new `last` values.  The
environment supplies, per iteration, the three initial samples and the three
20 ms re-sample levels (the latter are only consulted when the corresponding
edge block triggers). -/

/-- The locals `key1_last, key2_last, key3_last` of `key_thread_entry`
(initialized to `1`, i.e. released). -/
structure KeyState where
  key1_last : Bool
  key2_last : Bool
  key3_last : Bool

/-- Pin levels read during one key-thread iteration: the initial samples
`k1, k2, k3` and the post-20ms re-samples. -/
structure KeyInput where
  k1 : Bool
  k2 : Bool
  k3 : Bool
  k1_recheck : Bool
  k2_recheck : Bool
  k3_recheck : Bool

/-- Diagnostic line printed when KEY1 confirms (chase mode). -/
def mode_flow_msg : String := "Mode: 普通流水灯\r\n"

/-- Diagnostic line printed when KEY2 confirms (binary-count mode). -/
def mode_binary_msg : String := "Mode: 二进制计数\r\n"

/-- Diagnostic line printed when KEY3 confirms (all-off mode). -/
def mode_none_msg : String := "Mode: 全灭\r\n"

/-- The debounce block of one key: on a falling edge (`last` high, sample low),
re-sample after 20 ms; if still low, write `new_mode` to `g_led_mode` and
print `msg`.  `acc` carries the current mode together with the writes and log
lines accumulated so far in this iteration. -/
def key_check (last sample recheck : Bool) (new_mode : Nat) (msg : String)
    (acc : Nat × List Nat × List String) : Nat × List Nat × List String :=
  if last = true ∧ sample = false then
    if recheck = false then (new_mode, acc.2.1 ++ [new_mode], acc.2.2 ++ [msg])
    else acc
  else acc

/-- Result of one key-thread iteration: the updated `last` samples, the mode
after the iteration, the `g_led_mode` writes performed (in program order), and
the diagnostic lines printed. -/
structure KeyIterOut where
  ks : KeyState
  mode : Nat
  writes : List Nat
  log : List String

/-- One iteration of `key_thread_entry`: the three debounce blocks in program
order KEY1, KEY2, KEY3, then the unconditional update of the `last` fields. -/
def key_thread_iter (ks : KeyState) (mode : Nat) (inp : KeyInput) : KeyIterOut :=
  let a1 := key_check ks.key1_last inp.k1 inp.k1_recheck LED_MODE_FLOW
    mode_flow_msg (mode, [], [])
  let a2 := key_check ks.key2_last inp.k2 inp.k2_recheck LED_MODE_BINARY
    mode_binary_msg a1
  let a3 := key_check ks.key3_last inp.k3 inp.k3_recheck LED_MODE_NONE
    mode_none_msg a2
  ⟨⟨inp.k1, inp.k2, inp.k3⟩, a3.1, a3.2.1, a3.2.2⟩

/-- Run the key thread over a list of per-iteration inputs, returning the final
mode and the concatenation of all `g_led_mode` writes. -/
def key_thread_run (ks : KeyState) (mode : Nat) : List KeyInput → Nat × List Nat
  | [] => (mode, [])
  | inp :: rest =>
    let o := key_thread_iter ks mode inp
    let r := key_thread_run o.ks o.mode rest
    (r.1, o.writes ++ r.2)

/-- Initial value of `g_led_mode` (its static initializer). -/
def g_led_mode_init : Nat := LED_MODE_NONE

/-- Initial key-thread locals: all three `last` samples high. -/
def ks_init : KeyState := ⟨true, true, true⟩

/-! ### Key-check case analysis -/

theorem key_check_cases (last sample recheck : Bool) (new_mode : Nat)
    (msg : String) (acc : Nat × List Nat × List String) :
    key_check last sample recheck new_mode msg acc = acc
    ∨ key_check last sample recheck new_mode msg acc
        = (new_mode, acc.2.1 ++ [new_mode], acc.2.2 ++ [msg]) := by
  unfold key_check
  split_ifs <;> simp

theorem key_check_glitch (last sample recheck : Bool) (new_mode : Nat)
    (msg : String) (acc : Nat × List Nat × List String)
    (h1 : last = true) (h2 : sample = false) (h3 : recheck = true) :
    key_check last sample recheck new_mode msg acc = acc := by
  simp [key_check, h1, h2, h3]

theorem key_check_getLastD (last sample recheck : Bool) (new_mode : Nat)
    (msg : String) (m : Nat) (acc : Nat × List Nat × List String)
    (hacc : acc.1 = acc.2.1.getLastD m) :
    (key_check last sample recheck new_mode msg acc).1
      = (key_check last sample recheck new_mode msg acc).2.1.getLastD m := by
  rcases key_check_cases last sample recheck new_mode msg acc with h | h <;> rw [h]
  · exact hacc
  · rw [List.getLastD_concat]

/-- Within one iteration the mode after the three debounce blocks is the last
value written, or the incoming mode when nothing was written. -/
theorem key_thread_iter_mode (ks : KeyState) (mode : Nat) (inp : KeyInput) :
    (key_thread_iter ks mode inp).mode
      = (key_thread_iter ks mode inp).writes.getLastD mode := by
  exact key_check_getLastD _ _ _ _ _ mode _
    (key_check_getLastD _ _ _ _ _ mode _
      (key_check_getLastD _ _ _ _ _ mode _ rfl))

theorem getLastD_append_nat (l2 l1 : List Nat) (d : Nat) :
    (l1 ++ l2).getLastD d = l2.getLastD (l1.getLastD d) := by
  induction l1 generalizing d with
  | nil => rfl
  | cons a t ih => rw [List.cons_append, List.getLastD_cons, List.getLastD_cons, ih]

/-- Over any run, the final mode is the last write overall, or the initial mode
when no write was ever confirmed. -/
theorem key_thread_run_mode (inps : List KeyInput) : ∀ (ks : KeyState) (mode : Nat),
    (key_thread_run ks mode inps).1
      = (key_thread_run ks mode inps).2.getLastD mode := by
  induction inps with
  | nil => intro ks mode; rfl
  | cons inp rest ih =>
    intro ks mode
    show (key_thread_run (key_thread_iter ks mode inp).ks
        (key_thread_iter ks mode inp).mode rest).1
      = ((key_thread_iter ks mode inp).writes
          ++ (key_thread_run (key_thread_iter ks mode inp).ks
                (key_thread_iter ks mode inp).mode rest).2).getLastD mode
    rw [getLastD_append_nat, ← key_thread_iter_mode ks mode inp,
      ih (key_thread_iter ks mode inp).ks (key_thread_iter ks mode inp).mode]

/-- C3: for every sequence of key-thread iterations (several buttons may
confirm within one iteration, processed in program order KEY1, KEY2, KEY3),
the shared mode after the sequence equals the mode written by the last
confirmed edge: last-write-wins. -/
theorem C3_last_write_wins (ks : KeyState) (mode : Nat) (inps : List KeyInput)
    (h : (key_thread_run ks mode inps).2 ≠ []) :
    (key_thread_run ks mode inps).1
      = (key_thread_run ks mode inps).2.getLast h := by
  rw [key_thread_run_mode inps ks mode, List.getLastD_eq_getLast?,
    List.getLast?_eq_getLast _ h, Option.getD_some]

/-- Witness for `C3_last_write_wins`: one iteration in which KEY1 confirms
and then KEY2 confirms; the final mode is the last write, `LED_MODE_BINARY`. -/
theorem C3_last_write_wins_witness :
    (key_thread_run ks_init g_led_mode_init
        [⟨false, false, true, false, false, true⟩]).1
      = ((key_thread_run ks_init g_led_mode_init
          [⟨false, false, true, false, false, true⟩]).2).getLast (by decide) :=
  C3_last_write_wins ks_init g_led_mode_init
    [⟨false, false, true, false, false, true⟩] (by decide)

theorem key_check_length (last sample recheck : Bool) (new_mode : Nat)
    (msg : String) (acc : Nat × List Nat × List String)
    (h : acc.2.1.length = acc.2.2.length) :
    (key_check last sample recheck new_mode msg acc).2.1.length
      = (key_check last sample recheck new_mode msg acc).2.2.length := by
  rcases key_check_cases last sample recheck new_mode msg acc with hc | hc <;>
    rw [hc] <;> simp [h]

/-- An iteration that confirms no edge leaves the mode alone and prints
nothing. -/
theorem key_thread_iter_no_write (ks : KeyState) (mode : Nat) (inp : KeyInput)
    (hw : (key_thread_iter ks mode inp).writes = []) :
    (key_thread_iter ks mode inp).mode = mode
    ∧ (key_thread_iter ks mode inp).log = [] := by
  have hm := key_thread_iter_mode ks mode inp
  rw [hw] at hm
  have hlen : (key_thread_iter ks mode inp).writes.length
      = (key_thread_iter ks mode inp).log.length :=
    key_check_length _ _ _ _ _ _
      (key_check_length _ _ _ _ _ _
        (key_check_length _ _ _ _ _ _ rfl))
  rw [hw] at hlen
  exact ⟨hm, List.eq_nil_of_length_eq_zero hlen.symm⟩

theorem key_check_writes_mem (last sample recheck : Bool) (new_mode : Nat)
    (msg : String) (acc : Nat × List Nat × List String) (x : Nat)
    (hx : x ∈ (key_check last sample recheck new_mode msg acc).2.1) :
    x ∈ acc.2.1 ∨ x = new_mode := by
  rcases key_check_cases last sample recheck new_mode msg acc with hc | hc <;>
    rw [hc] at hx
  · exact Or.inl hx
  · rcases List.mem_append.mp hx with hm | hm
    · exact Or.inl hm
    · right; simpa using hm

theorem key_check_log_mem (last sample recheck : Bool) (new_mode : Nat)
    (msg : String) (acc : Nat × List Nat × List String) (x : String)
    (hx : x ∈ (key_check last sample recheck new_mode msg acc).2.2) :
    x ∈ acc.2.2 ∨ x = msg := by
  rcases key_check_cases last sample recheck new_mode msg acc with hc | hc <;>
    rw [hc] at hx
  · exact Or.inl hx
  · rcases List.mem_append.mp hx with hm | hm
    · exact Or.inl hm
    · right; simpa using hm

/-- The `last` sample of button `b` (KEY1, KEY2, KEY3). -/
def key_last (ks : KeyState) : Fin 3 → Bool
  | 0 => ks.key1_last
  | 1 => ks.key2_last
  | 2 => ks.key3_last

/-- The initial sample of button `b` in an iteration. -/
def key_sample (inp : KeyInput) : Fin 3 → Bool
  | 0 => inp.k1
  | 1 => inp.k2
  | 2 => inp.k3

/-- The 20 ms re-sample of button `b` in an iteration. -/
def key_recheck (inp : KeyInput) : Fin 3 → Bool
  | 0 => inp.k1_recheck
  | 1 => inp.k2_recheck
  | 2 => inp.k3_recheck

/-- The mode assigned when button `b` confirms. -/
def key_mode_of : Fin 3 → Nat
  | 0 => LED_MODE_FLOW
  | 1 => LED_MODE_BINARY
  | 2 => LED_MODE_NONE

/-- The diagnostic line printed when button `b` confirms. -/
def key_msg_of : Fin 3 → String
  | 0 => mode_flow_msg
  | 1 => mode_binary_msg
  | 2 => mode_none_msg

/-- C4 as stated is false: in an iteration where KEY1 samples a falling edge
whose 20 ms re-sample reads high (a glitch) while KEY2 debounce-confirms, the
iteration does change the shared mode (to `LED_MODE_BINARY`). -/
theorem C4_glitch_counterexample :
    (key_last ks_init 0 = true
      ∧ key_sample (⟨false, false, true, true, false, true⟩ : KeyInput) 0 = false
      ∧ key_recheck (⟨false, false, true, true, false, true⟩ : KeyInput) 0 = true)
    ∧ ¬ ((key_thread_iter ks_init g_led_mode_init
          (⟨false, false, true, true, false, true⟩ : KeyInput)).mode
        = g_led_mode_init) := by decide

/-- C4 amended: in any iteration in which button `b` samples a falling edge
but the 20 ms re-sample reads high again (a momentary glitch), that button
writes nothing and prints nothing — its mode value never appears among the
writes of the iteration and its diagnostic line never appears in the log; and if no
button debounce-confirms in the iteration, the shared mode is unchanged and
nothing is printed.  (The unrestricted "the mode is left unchanged by that
iteration" fails when another button confirms in the same iteration, see
`C4_glitch_counterexample`.) -/
theorem C4_glitch_no_effect (ks : KeyState) (mode : Nat) (inp : KeyInput)
    (b : Fin 3) (h1 : key_last ks b = true) (h2 : key_sample inp b = false)
    (h3 : key_recheck inp b = true) :
    key_msg_of b ∉ (key_thread_iter ks mode inp).log
    ∧ key_mode_of b ∉ (key_thread_iter ks mode inp).writes
    ∧ ((key_thread_iter ks mode inp).writes = []
        → (key_thread_iter ks mode inp).mode = mode
          ∧ (key_thread_iter ks mode inp).log = []) := by
  refine ⟨?_, ?_, fun hw => key_thread_iter_no_write ks mode inp hw⟩
  · intro hmem
    fin_cases b
    · replace h1 : ks.key1_last = true := h1
      replace h2 : inp.k1 = false := h2
      replace h3 : inp.k1_recheck = true := h3
      have hm3 : mode_flow_msg ∈ (key_check ks.key3_last inp.k3 inp.k3_recheck
          LED_MODE_NONE mode_none_msg (key_check ks.key2_last inp.k2 inp.k2_recheck
            LED_MODE_BINARY mode_binary_msg (key_check ks.key1_last inp.k1
              inp.k1_recheck LED_MODE_FLOW mode_flow_msg (mode, [], [])))).2.2 := hmem
      rcases key_check_log_mem _ _ _ _ _ _ _ hm3 with hm2 | heq
      · rcases key_check_log_mem _ _ _ _ _ _ _ hm2 with hm1 | heq
        · rw [key_check_glitch _ _ _ _ _ _ h1 h2 h3] at hm1
          exact absurd hm1 (List.not_mem_nil _)
        · exact absurd heq (by decide)
      · exact absurd heq (by decide)
    · replace h1 : ks.key2_last = true := h1
      replace h2 : inp.k2 = false := h2
      replace h3 : inp.k2_recheck = true := h3
      have hm3 : mode_binary_msg ∈ (key_check ks.key3_last inp.k3 inp.k3_recheck
          LED_MODE_NONE mode_none_msg (key_check ks.key2_last inp.k2 inp.k2_recheck
            LED_MODE_BINARY mode_binary_msg (key_check ks.key1_last inp.k1
              inp.k1_recheck LED_MODE_FLOW mode_flow_msg (mode, [], [])))).2.2 := hmem
      rcases key_check_log_mem _ _ _ _ _ _ _ hm3 with hm2 | heq
      · rw [key_check_glitch _ _ _ _ _ _ h1 h2 h3] at hm2
        rcases key_check_log_mem _ _ _ _ _ _ _ hm2 with hm1 | heq
        · exact absurd hm1 (List.not_mem_nil _)
        · exact absurd heq (by decide)
      · exact absurd heq (by decide)
    · replace h1 : ks.key3_last = true := h1
      replace h2 : inp.k3 = false := h2
      replace h3 : inp.k3_recheck = true := h3
      have hm3 : mode_none_msg ∈ (key_check ks.key3_last inp.k3 inp.k3_recheck
          LED_MODE_NONE mode_none_msg (key_check ks.key2_last inp.k2 inp.k2_recheck
            LED_MODE_BINARY mode_binary_msg (key_check ks.key1_last inp.k1
              inp.k1_recheck LED_MODE_FLOW mode_flow_msg (mode, [], [])))).2.2 := hmem
      rw [key_check_glitch _ _ _ _ _ _ h1 h2 h3] at hm3
      rcases key_check_log_mem _ _ _ _ _ _ _ hm3 with hm2 | heq
      · rcases key_check_log_mem _ _ _ _ _ _ _ hm2 with hm1 | heq
        · exact absurd hm1 (List.not_mem_nil _)
        · exact absurd heq (by decide)
      · exact absurd heq (by decide)
  · intro hmem
    fin_cases b
    · replace h1 : ks.key1_last = true := h1
      replace h2 : inp.k1 = false := h2
      replace h3 : inp.k1_recheck = true := h3
      have hm3 : LED_MODE_FLOW ∈ (key_check ks.key3_last inp.k3 inp.k3_recheck
          LED_MODE_NONE mode_none_msg (key_check ks.key2_last inp.k2 inp.k2_recheck
            LED_MODE_BINARY mode_binary_msg (key_check ks.key1_last inp.k1
              inp.k1_recheck LED_MODE_FLOW mode_flow_msg (mode, [], [])))).2.1 := hmem
      rcases key_check_writes_mem _ _ _ _ _ _ _ hm3 with hm2 | heq
      · rcases key_check_writes_mem _ _ _ _ _ _ _ hm2 with hm1 | heq
        · rw [key_check_glitch _ _ _ _ _ _ h1 h2 h3] at hm1
          exact absurd hm1 (List.not_mem_nil _)
        · exact absurd heq (by decide)
      · exact absurd heq (by decide)
    · replace h1 : ks.key2_last = true := h1
      replace h2 : inp.k2 = false := h2
      replace h3 : inp.k2_recheck = true := h3
      have hm3 : LED_MODE_BINARY ∈ (key_check ks.key3_last inp.k3 inp.k3_recheck
          LED_MODE_NONE mode_none_msg (key_check ks.key2_last inp.k2 inp.k2_recheck
            LED_MODE_BINARY mode_binary_msg (key_check ks.key1_last inp.k1
              inp.k1_recheck LED_MODE_FLOW mode_flow_msg (mode, [], [])))).2.1 := hmem
      rcases key_check_writes_mem _ _ _ _ _ _ _ hm3 with hm2 | heq
      · rw [key_check_glitch _ _ _ _ _ _ h1 h2 h3] at hm2
        rcases key_check_writes_mem _ _ _ _ _ _ _ hm2 with hm1 | heq
        · exact absurd hm1 (List.not_mem_nil _)
        · exact absurd heq (by decide)
      · exact absurd heq (by decide)
    · replace h1 : ks.key3_last = true := h1
      replace h2 : inp.k3 = false := h2
      replace h3 : inp.k3_recheck = true := h3
      have hm3 : LED_MODE_NONE ∈ (key_check ks.key3_last inp.k3 inp.k3_recheck
          LED_MODE_NONE mode_none_msg (key_check ks.key2_last inp.k2 inp.k2_recheck
            LED_MODE_BINARY mode_binary_msg (key_check ks.key1_last inp.k1
              inp.k1_recheck LED_MODE_FLOW mode_flow_msg (mode, [], [])))).2.1 := hmem
      rw [key_check_glitch _ _ _ _ _ _ h1 h2 h3] at hm3
      rcases key_check_writes_mem _ _ _ _ _ _ _ hm3 with hm2 | heq
      · rcases key_check_writes_mem _ _ _ _ _ _ _ hm2 with hm1 | heq
        · exact absurd hm1 (List.not_mem_nil _)
        · exact absurd heq (by decide)
      · exact absurd heq (by decide)

/-- Witness for `C4_glitch_no_effect`: all three buttons glitch in the same
iteration; the diagnostic for KEY1 is absent. -/
theorem C4_glitch_no_effect_witness :
    mode_flow_msg ∉ (key_thread_iter ks_init g_led_mode_init
      (⟨false, false, false, true, true, true⟩ : KeyInput)).log :=
  (C4_glitch_no_effect ks_init g_led_mode_init
    (⟨false, false, false, true, true, true⟩ : KeyInput) 0 rfl rfl rfl).1

/-! ### Mode invariant -/

/-- The mode byte holds one of the three enumerated values. -/
def mode_valid (m : Nat) : Prop :=
  m = LED_MODE_NONE ∨ m = LED_MODE_FLOW ∨ m = LED_MODE_BINARY

theorem key_check_mode_valid (last sample recheck : Bool) (new_mode : Nat)
    (msg : String) (acc : Nat × List Nat × List String)
    (hacc : mode_valid acc.1) (hnm : mode_valid new_mode) :
    mode_valid (key_check last sample recheck new_mode msg acc).1 := by
  rcases key_check_cases last sample recheck new_mode msg acc with h | h <;> rw [h]
  · exact hacc
  · exact hnm

/-- Every value the key thread ever stores into `g_led_mode` is one of the
three mode codes. -/
theorem key_thread_iter_writes_valid (ks : KeyState) (mode : Nat)
    (inp : KeyInput) : ∀ x ∈ (key_thread_iter ks mode inp).writes, mode_valid x := by
  intro x hx
  have hx3 : x ∈ (key_check ks.key3_last inp.k3 inp.k3_recheck LED_MODE_NONE
      mode_none_msg (key_check ks.key2_last inp.k2 inp.k2_recheck LED_MODE_BINARY
        mode_binary_msg (key_check ks.key1_last inp.k1 inp.k1_recheck LED_MODE_FLOW
          mode_flow_msg (mode, [], [])))).2.1 := hx
  rcases key_check_writes_mem _ _ _ _ _ _ _ hx3 with hx2 | rfl
  · rcases key_check_writes_mem _ _ _ _ _ _ _ hx2 with hx1 | rfl
    · rcases key_check_writes_mem _ _ _ _ _ _ _ hx1 with hx0 | rfl
      · exact absurd hx0 (List.not_mem_nil _)
      · exact Or.inr (Or.inl rfl)
    · exact Or.inr (Or.inr rfl)
  · exact Or.inl rfl

theorem key_thread_iter_mode_valid (ks : KeyState) (mode : Nat) (inp : KeyInput)
    (h : mode_valid mode) : mode_valid (key_thread_iter ks mode inp).mode :=
  key_check_mode_valid _ _ _ _ _ _
    (key_check_mode_valid _ _ _ _ _ _
      (key_check_mode_valid _ _ _ _ _ _ h (Or.inr (Or.inl rfl)))
      (Or.inr (Or.inr rfl)))
    (Or.inl rfl)

theorem key_thread_run_mode_valid (inps : List KeyInput) :
    ∀ (ks : KeyState) (mode : Nat), mode_valid mode →
      mode_valid (key_thread_run ks mode inps).1 := by
  induction inps with
  | nil => intro ks mode h; exact h
  | cons inp rest ih =>
    intro ks mode h
    exact ih (key_thread_iter ks mode inp).ks (key_thread_iter ks mode inp).mode
      (key_thread_iter_mode_valid ks mode inp h)

/-- The LED thread never writes the shared mode byte. -/
theorem led_thread_iter_g_led_mode (s : SysState) :
    (led_thread_iter s).g_led_mode = s.g_led_mode := by
  show (if s.g_led_mode = LED_MODE_FLOW then led_mode_flow_step s
      else if s.g_led_mode = LED_MODE_BINARY then led_mode_binary_step s
      else leds_all_off s).g_led_mode = s.g_led_mode
  split_ifs with h1 h2
  · by_cases h : s.flow_index < 4 <;>
      simp only [led_mode_flow_step, dif_pos, dif_neg, h, if_true, if_false] <;> rfl
  · exact (led_mode_binary_step_spec s).2.2.2
  · rfl

/-- C9: `g_led_mode` is initialized to `Off`; every key-thread write stores
one of the three enumerated codes; one iteration and any run of the key thread
preserve the invariant, and the LED thread never writes the mode at all — so
the invariant holds in every reachable state. -/
theorem C9_mode_invariant (ks : KeyState) (mode : Nat) (inp : KeyInput)
    (inps : List KeyInput) (s : SysState) (h : mode_valid mode) :
    g_led_mode_init = LED_MODE_NONE
    ∧ (∀ x ∈ (key_thread_iter ks mode inp).writes, mode_valid x)
    ∧ mode_valid (key_thread_iter ks mode inp).mode
    ∧ mode_valid (key_thread_run ks mode inps).1
    ∧ (led_thread_iter s).g_led_mode = s.g_led_mode :=
  ⟨rfl, key_thread_iter_writes_valid ks mode inp,
    key_thread_iter_mode_valid ks mode inp h,
    key_thread_run_mode_valid inps ks mode h,
    led_thread_iter_g_led_mode s⟩

/-- Witness for `C9_mode_invariant`: a run from the startup state in which
KEY2 confirms; the resulting mode is one of the three codes. -/
theorem C9_mode_invariant_witness :
    mode_valid (key_thread_run ks_init g_led_mode_init
      [⟨true, false, true, true, false, true⟩]).1 :=
  (C9_mode_invariant ks_init g_led_mode_init
    (⟨true, false, true, true, false, true⟩ : KeyInput)
    [⟨true, false, true, true, false, true⟩] s_init (Or.inl rfl)).2.2.2.1

/-! ### The process entry point `main`

`main` is one-shot glue: pin configuration, two `rt_thread_create` calls whose
success is decided by the RTOS, and `rt_thread_startup` guarded by a non-null
handle.  It is modeled as a pure function from the two creation outcomes to
the returned status and the trace of platform calls made. -/

/-- The seven pins named in the schematic comment of `src/main.c`. -/
inductive Pin where
  | PF7 | PF8 | PE3 | PE2 | PA0 | PC13 | PB14
deriving DecidableEq

def LED1_PIN : Pin := Pin.PF7
def LED2_PIN : Pin := Pin.PF8
def LED3_PIN : Pin := Pin.PE3
def LED4_PIN : Pin := Pin.PE2
def KEY1_PIN : Pin := Pin.PA0
def KEY2_PIN : Pin := Pin.PC13
def KEY3_PIN : Pin := Pin.PB14

/-- The two pin configurations `main` uses. -/
inductive PinMode where
  | PIN_MODE_OUTPUT
  | PIN_MODE_INPUT_PULLUP
deriving DecidableEq

/-- A platform call made by `main`. -/
inductive MainAction where
  | pin_mode (p : Pin) (m : PinMode)
  | pin_write (p : Pin) (level : Bool)
  | thread_create (name : String) (stack priority tick : Nat)
  | thread_startup (name : String)
  | kprintf (line : String)
deriving DecidableEq

/-- The RT-Thread success status `RT_EOK`. -/
def RT_EOK : Nat := 0

/-- The entry point `main`: configure the four LED pins as outputs, drive them low
(`leds_all_off`), configure the three key pins as pulled-up inputs, create the
LED thread and start it only if creation succeeded, create the key thread and
start it only if creation succeeded, and return `RT_EOK`.  `led_create_ok` and
`key_create_ok` say whether the corresponding `rt_thread_create` returned a
non-null handle. -/
def main (led_create_ok key_create_ok : Bool) : Nat × List MainAction :=
  let t0 : List MainAction :=
    [MainAction.pin_mode LED1_PIN PinMode.PIN_MODE_OUTPUT,
     MainAction.pin_mode LED2_PIN PinMode.PIN_MODE_OUTPUT,
     MainAction.pin_mode LED3_PIN PinMode.PIN_MODE_OUTPUT,
     MainAction.pin_mode LED4_PIN PinMode.PIN_MODE_OUTPUT,
     MainAction.pin_write LED1_PIN false,
     MainAction.pin_write LED2_PIN false,
     MainAction.pin_write LED3_PIN false,
     MainAction.pin_write LED4_PIN false,
     MainAction.pin_mode KEY1_PIN PinMode.PIN_MODE_INPUT_PULLUP,
     MainAction.pin_mode KEY2_PIN PinMode.PIN_MODE_INPUT_PULLUP,
     MainAction.pin_mode KEY3_PIN PinMode.PIN_MODE_INPUT_PULLUP,
     MainAction.thread_create "led" 1024 5 10]
  let t1 := t0 ++ (if led_create_ok then [MainAction.thread_startup "led"] else [])
  let t2 := t1 ++ [MainAction.thread_create "key" 1024 6 10]
  let t3 := t2 ++ (if key_create_ok then [MainAction.thread_startup "key"] else [])
  (RT_EOK, t3)

/-- Everything in the trace of `main` except the two guarded startup calls. -/
def nonStartupAct : MainAction → Bool
  | MainAction.thread_startup _ => false
  | _ => true

/-- C8: `main` configures the pins, attempts to create both threads, and
returns `RT_EOK` in every case; a failed creation only skips the startup
call of that thread — no retry, no log line, no other difference in the trace, and
the return status is unaffected. -/
theorem C8_main_silent_degradation (lok kok : Bool) :
    (main lok kok).1 = RT_EOK
    ∧ MainAction.pin_mode LED1_PIN PinMode.PIN_MODE_OUTPUT ∈ (main lok kok).2
    ∧ MainAction.pin_mode LED2_PIN PinMode.PIN_MODE_OUTPUT ∈ (main lok kok).2
    ∧ MainAction.pin_mode LED3_PIN PinMode.PIN_MODE_OUTPUT ∈ (main lok kok).2
    ∧ MainAction.pin_mode LED4_PIN PinMode.PIN_MODE_OUTPUT ∈ (main lok kok).2
    ∧ MainAction.pin_mode KEY1_PIN PinMode.PIN_MODE_INPUT_PULLUP ∈ (main lok kok).2
    ∧ MainAction.pin_mode KEY2_PIN PinMode.PIN_MODE_INPUT_PULLUP ∈ (main lok kok).2
    ∧ MainAction.pin_mode KEY3_PIN PinMode.PIN_MODE_INPUT_PULLUP ∈ (main lok kok).2
    ∧ MainAction.thread_create "led" 1024 5 10 ∈ (main lok kok).2
    ∧ MainAction.thread_create "key" 1024 6 10 ∈ (main lok kok).2
    ∧ (lok = false → MainAction.thread_startup "led" ∉ (main lok kok).2)
    ∧ (kok = false → MainAction.thread_startup "key" ∉ (main lok kok).2)
    ∧ (∀ line : String, MainAction.kprintf line ∉ (main lok kok).2)
    ∧ (main lok kok).2.filter nonStartupAct = (main true true).2.filter nonStartupAct := by
  have hkp : ∀ (l k : Bool) (line : String),
      MainAction.kprintf line ∉ (main l k).2 := by
    intro l k line hmem
    cases l <;> cases k <;> simp [main] at hmem
  cases lok <;> cases kok <;>
    exact ⟨rfl, by decide, by decide, by decide, by decide, by decide, by decide,
      by decide, by decide, by decide, by decide, by decide, hkp _ _, rfl⟩

/-- Witness for `C8_main_silent_degradation`: when LED-thread creation fails,
its startup call is absent from the trace. -/
theorem C8_main_silent_degradation_witness :
    MainAction.thread_startup "led" ∉ (main false true).2 :=
  (C8_main_silent_degradation false true).2.2.2.2.2.2.2.2.2.2.1 rfl

end LedKey
